import Mathlib

/-!
# Laser-induced cavitation model of APECSS (`lic_apecss.c`)

A shallow embedding of the five case-dependent functions of
`examples/laserinducedcavitation/src/lic_apecss.c`:

* `lic_equilibriumradius`          (source lines 246-260)
* `lic_particlevelocityderivative` (source lines 215-244)
* `lic_gilmorevelocity_ode`        (source lines 191-213)
* `lic_gas_pressure_hc`            (source lines 262-275)
* `lic_gas_pressurederivative_hc`  (source lines 277-287)

`APECSS_FLOAT` is embedded as an arbitrary linearly ordered field `α`; the
functions of the C math library (`pow`, `sin`, `cos`, `sqrt`) and the two
irrational constants are the fields of `MathLib α`, so every definition is
computable and can be run over `ℚ`.  The analytic statements instantiate
`α := ℝ` with the real functions (`realMath`).  Rounding, infinities and NaN
of IEEE arithmetic are outside the embedding.
-/

namespace Apecss

/-! ## Data model -/

/-- The functions of the C math library that the source calls through the
macros `APECSS_POW`, `APECSS_SIN`, `APECSS_COS`, `APECSS_SQRT`, together with
the constants `APECSS_PI` and `APECSS_LN_OF_10`.  The macros are declared in
`apecss.h`, which is not part of the sources at hand; they are parameters. -/
structure MathLib (α : Type) where
  /-- The function behind `APECSS_POW(x, y)`. -/
  pow : α → α → α
  /-- The function behind `APECSS_SIN(x)`. -/
  sin : α → α
  /-- The function behind `APECSS_COS(x)`. -/
  cos : α → α
  /-- The function behind `APECSS_SQRT(x)`. -/
  sqrt : α → α
  /-- The constant `APECSS_PI`. -/
  pi : α
  /-- The constant `APECSS_LN_OF_10`. -/
  ln10 : α

/-- The `struct LIC` of source lines 30-33. -/
structure LIC (α : Type) where
  tauL : α
  Rnbd : α
  Rnc1 : α
  Rnc2 : α
  tmax1 : α
  tmax2 : α

/-- The solution vector `APECSS_FLOAT *Sol`: `Sol[0]` is the bubble wall
velocity `U`, `Sol[1]` the bubble radius `R`. -/
structure Sol (α : Type) where
  /-- The entry `Sol[0]`. -/
  U : α
  /-- The entry `Sol[1]`. -/
  R : α

/-- The fields of `struct APECSS_Gas` that the source reads. -/
structure APECSS_Gas (α : Type) where
  Gamma : α

/-- The fields of `struct APECSS_Liquid` that the source reads, with the three
NASG closures `apecss_liquid_density_nasg`, `apecss_liquid_enthalpy_nasg` and
`apecss_liquid_soundspeed_nasg` of the APECSS library, which the source calls
with this structure as their last argument.  Callbacks are functions of their
numeric arguments; the bubble they also receive is the one holding them. -/
structure APECSS_Liquid (α : Type) where
  rhoref : α
  cref : α
  get_pressure_bubblewall : Sol α → α → α
  get_pressurederivative_bubblewall_expl : Sol α → α → α
  get_pressurederivative_viscous_impl : α → α
  density_nasg : α → α
  enthalpy_nasg : α → α → α
  soundspeed_nasg : α → α → α

/-- The fields of `struct APECSS_Interface` that the source reads. -/
structure APECSS_Interface (α : Type) where
  get_surfacetension : α → α
  get_pressurederivative_viscous_impl : α → α

/-- The fields of `struct APECSS_Bubble` that the source reads.  The case data
`user_data` is passed to the functions as a separate `LIC` argument. -/
structure APECSS_Bubble (α : Type) where
  t : α
  R0 : α
  p0 : α
  get_pressure_infinity : α → α
  get_pressurederivative_infinity : α → α
  Gas : APECSS_Gas α
  Liquid : APECSS_Liquid α
  Interface : APECSS_Interface α

section Model

variable {α : Type} [LinearOrderedField α]

/-- Modelled from the spec: the macro `APECSS_POW2` of `apecss.h` (absent from
the sources at hand), the square that the spec writes `U²`, `R²`. -/
def APECSS_POW2 (a : α) : α := a * a

/-- Modelled from the spec: the macro `APECSS_POW3` of `apecss.h` (absent from
the sources at hand), the cube that the spec writes `R0³`, `Rn³`. -/
def APECSS_POW3 (a : α) : α := a * a * a

/-- Modelled from the spec: the macro `APECSS_POW4` of `apecss.h` (absent from
the sources at hand), the fourth power that the spec writes `Rn⁴`, `R0⁴`. -/
def APECSS_POW4 (a : α) : α := a * a * a * a

/-- Modelled from the spec: the macro `APECSS_ONETHIRD` of `apecss.h` (absent
from the sources at hand), the exponent that the spec writes `1/3`. -/
def APECSS_ONETHIRD : α := 1 / 3

/-! ## The equilibrium radius -/

/-- The first argument of `APECSS_POW` in the growth branch of
`lic_equilibriumradius` (source lines 251-252): the cube of the equilibrium
radius during the laser pulse. -/
def lic_growthargument (M : MathLib α) (lic_data : LIC α) (Bubble : APECSS_Bubble α) (t : α) : α :=
  APECSS_POW3 Bubble.R0 + (APECSS_POW3 lic_data.Rnbd - APECSS_POW3 Bubble.R0) *
    (t - (lic_data.tauL / M.pi) * M.sin (M.pi * t / lic_data.tauL)) / (2 * lic_data.tauL)

/-- The value returned by the growth branch of `lic_equilibriumradius`
(source lines 251-253), Eq. (3.9) of Liang et al. -/
def lic_growthradius (M : MathLib α) (lic_data : LIC α) (Bubble : APECSS_Bubble α) (t : α) : α :=
  M.pow (lic_growthargument M lic_data Bubble t) APECSS_ONETHIRD

/-- The function `lic_equilibriumradius` (source lines 246-260). -/
def lic_equilibriumradius (M : MathLib α) (lic_data : LIC α) (Bubble : APECSS_Bubble α) (t : α) : α :=
  if t < 2 * lic_data.tauL then
    lic_growthradius M lic_data Bubble t
  else if t < lic_data.tmax1 then
    lic_data.Rnbd
  else if t < lic_data.tmax2 then
    lic_data.Rnc1
  else
    lic_data.Rnc2

/-! ## The particle velocity generated by the laser -/

/-- The Hugoniot parameter `c1` of Rice and Walsh (source line 232). -/
def hugoniot_c1 : α := 5190

/-- The Hugoniot parameter `c2` of Rice and Walsh (source line 233). -/
def hugoniot_c2 : α := 25306

/-- The local `P` of `lic_particlevelocityderivative` (source line 236): the
pressure generated by the laser-induced breakdown, Eq. (3.19). -/
def lic_breakdownpressure (M : MathLib α) (lic_data : LIC α) (Bubble : APECSS_Bubble α)
    (Sol : Sol α) (t : α) : α :=
  let pinf := Bubble.get_pressure_infinity t
  let sigma := Bubble.Interface.get_surfacetension Sol.R
  let Rn := lic_equilibriumradius M lic_data Bubble t
  (pinf * APECSS_POW4 Rn + 2 * sigma * APECSS_POW3 Rn) / APECSS_POW4 Bubble.R0

/-- The local `dotP` of `lic_particlevelocityderivative` (source lines
237-239), Eq. (3.22). -/
def lic_breakdownpressurederivative (M : MathLib α) (lic_data : LIC α) (Bubble : APECSS_Bubble α)
    (Sol : Sol α) (t : α) : α :=
  let pinf := Bubble.get_pressure_infinity t
  let sigma := Bubble.Interface.get_surfacetension Sol.R
  let Rn := lic_equilibriumradius M lic_data Bubble t
  ((2 * pinf * Rn + 3 * sigma) / (3 * APECSS_POW4 Bubble.R0 * lic_data.tauL)) *
    (APECSS_POW3 lic_data.Rnbd - APECSS_POW3 Bubble.R0) *
    (1 - M.cos (M.pi * t / lic_data.tauL))

/-- The argument of `APECSS_SQRT` in `lic_particlevelocityderivative`
(source lines 241-242). -/
def lic_radicand (M : MathLib α) (lic_data : LIC α) (Bubble : APECSS_Bubble α)
    (Sol : Sol α) (t : α) : α :=
  APECSS_POW2 Bubble.Liquid.rhoref * APECSS_POW2 Bubble.Liquid.cref +
    4 * Bubble.Liquid.rhoref * hugoniot_c2 * lic_breakdownpressure M lic_data Bubble Sol t /
      (M.ln10 * hugoniot_c1)

/-- The function `lic_particlevelocityderivative` (source lines 215-244),
Eq. (3.30). -/
def lic_particlevelocityderivative (M : MathLib α) (lic_data : LIC α) (Bubble : APECSS_Bubble α)
    (Sol : Sol α) (t : α) : α :=
  if t > 2 * lic_data.tauL then
    0
  else
    lic_breakdownpressurederivative M lic_data Bubble Sol t /
      M.sqrt (lic_radicand M lic_data Bubble Sol t)

/-! ## The modified Gilmore equation -/

/-- The local `GilmoreCoeffB` of `lic_gilmorevelocity_ode` (source lines
195-205). -/
def lic_GilmoreCoeffB (Bubble : APECSS_Bubble α) (Sol : Sol α) (t : α) : α :=
  let pL := Bubble.Liquid.get_pressure_bubblewall Sol t
  let rhoL := Bubble.Liquid.density_nasg pL
  let inv_cL := 1 / Bubble.Liquid.soundspeed_nasg pL rhoL
  let dot_pvisc_impl :=
    Bubble.Liquid.get_pressurederivative_viscous_impl Sol.R +
      Bubble.Interface.get_pressurederivative_viscous_impl Sol.R
  1 + dot_pvisc_impl * inv_cL / rhoL

/-- The local `dotU_Gilmore` of `lic_gilmorevelocity_ode` (source lines
195-210). -/
def lic_dotU_Gilmore (Bubble : APECSS_Bubble α) (Sol : Sol α) (t : α) : α :=
  let pL := Bubble.Liquid.get_pressure_bubblewall Sol t
  let pInf := Bubble.get_pressure_infinity t
  let rhoL := Bubble.Liquid.density_nasg pL
  let rhoInf := Bubble.Liquid.density_nasg pInf
  let H := Bubble.Liquid.enthalpy_nasg pL rhoL - Bubble.Liquid.enthalpy_nasg pInf rhoInf
  let dot_Hexpl :=
    Bubble.Liquid.get_pressurederivative_bubblewall_expl Sol t / rhoL -
      Bubble.get_pressurederivative_infinity t / rhoInf
  let inv_cL := 1 / Bubble.Liquid.soundspeed_nasg pL rhoL
  let GilmoreCoeffB := lic_GilmoreCoeffB Bubble Sol t
  (((1 + Sol.U * inv_cL) * H -
        (3 / 2) * (1 - Sol.U * APECSS_ONETHIRD * inv_cL) * APECSS_POW2 Sol.U) /
      ((1 - Sol.U * inv_cL) * Sol.R) +
    dot_Hexpl * inv_cL) /
    GilmoreCoeffB

/-- The function `lic_gilmorevelocity_ode` (source lines 191-213),
Eq. (3.17). -/
def lic_gilmorevelocity_ode (M : MathLib α) (lic_data : LIC α) (Bubble : APECSS_Bubble α)
    (Sol : Sol α) (t : α) : α :=
  lic_dotU_Gilmore Bubble Sol t + lic_particlevelocityderivative M lic_data Bubble Sol t

/-! ## The hard-core gas pressure -/

/-- The function `lic_gas_pressure_hc` (source lines 262-275), Eq. (3.3).  It
has no time argument: the time is the field `Bubble->t`. -/
def lic_gas_pressure_hc (M : MathLib α) (lic_data : LIC α) (Bubble : APECSS_Bubble α)
    (Sol : Sol α) : α :=
  let sigma := Bubble.Interface.get_surfacetension Sol.R
  let Rn := lic_equilibriumradius M lic_data Bubble Bubble.t
  let rhc : α := (if Bubble.t > lic_data.tmax1 then Rn / 9 else 0)
  (Bubble.p0 + 2 * sigma / Rn) *
    M.pow ((APECSS_POW3 Rn - APECSS_POW3 rhc) / (APECSS_POW3 Sol.R - APECSS_POW3 rhc))
      Bubble.Gas.Gamma

/-- The function `lic_gas_pressurederivative_hc` (source lines 277-287).  Its
time argument `t` is not read: the time is the field `Bubble->t`. -/
def lic_gas_pressurederivative_hc (M : MathLib α) (lic_data : LIC α) (Bubble : APECSS_Bubble α)
    (Sol : Sol α) (_t : α) : α :=
  let rhc : α :=
    (if Bubble.t > lic_data.tmax1 then lic_equilibriumradius M lic_data Bubble Bubble.t / 9 else 0)
  (-3) * lic_gas_pressure_hc M lic_data Bubble Sol * Bubble.Gas.Gamma * APECSS_POW2 Sol.R * Sol.U /
    (APECSS_POW3 Sol.R - APECSS_POW3 rhc)

/-! ## The reference case of `main` -/

/-- The case data set in `main` (source lines 48-63). -/
def lic_data_main : LIC α where
  tauL := 265 / 10 ^ 15
  Rnbd := 13718 / 10 ^ 9
  Rnc1 := 3615 / 10 ^ 9
  Rnc2 := 2415 / 10 ^ 9
  tmax1 := 32440 / 10 ^ 10
  tmax2 := 72688 / 10 ^ 10

/-! ## The formulas as the specification words them -/

/-- The hard-core radius in the words of the specification (section 4.4):
`rhc = 0` until `t > tmax1`, after which `rhc = Rn(t)/9`. -/
def hardcore_radius_spec (M : MathLib α) (lic_data : LIC α) (Bubble : APECSS_Bubble α) (t : α) : α :=
  if t ≤ lic_data.tmax1 then 0 else lic_equilibriumradius M lic_data Bubble t / 9

/-- The pressure law in the words of the specification (section 4.4):
`p_gas = (p0 + 2σ/Rn) · ((Rn³ − rhc³) / (R³ − rhc³))^Γ` at the time `t`. -/
def gas_pressure_spec (M : MathLib α) (lic_data : LIC α) (Bubble : APECSS_Bubble α)
    (Sol : Sol α) (t : α) : α :=
  let Rn := lic_equilibriumradius M lic_data Bubble t
  let rhc := hardcore_radius_spec M lic_data Bubble t
  (Bubble.p0 + 2 * Bubble.Interface.get_surfacetension Sol.R / Rn) *
    M.pow ((Rn ^ 3 - rhc ^ 3) / (Sol.R ^ 3 - rhc ^ 3)) Bubble.Gas.Gamma

/-- The pressure derivative in the words of the specification (section 4.4):
`dp_gas/dt = −3·p_gas·Γ·R²·U / (R³ − rhc³)` at the time `t`. -/
def gas_pressure_derivative_spec (M : MathLib α) (lic_data : LIC α) (Bubble : APECSS_Bubble α)
    (Sol : Sol α) (t : α) : α :=
  -3 * gas_pressure_spec M lic_data Bubble Sol t * Bubble.Gas.Gamma * Sol.R ^ 2 * Sol.U /
    (Sol.R ^ 3 - hardcore_radius_spec M lic_data Bubble t ^ 3)

/-- The correction coefficient in the words of the specification (section 4.2,
step 5): `GilmoreCoeffB = 1 + (dot_pvisc_impl / cL) / ρL`. -/
def GilmoreCoeffB_spec (dot_pvisc_impl cL rhoL : α) : α :=
  1 + (dot_pvisc_impl / cL) / rhoL

/-- The Gilmore acceleration in the words of the specification (section 4.2,
step 6):
`[((1 + U/cL)·H − 1.5·(1 − U/(3cL))·U²) / ((1 − U/cL)·R) + dot_Hexpl/cL] / GilmoreCoeffB`. -/
def dotU_Gilmore_spec (U R H dot_Hexpl cL GilmoreCoeffB : α) : α :=
  (((1 + U / cL) * H - (3 / 2) * (1 - U / (3 * cL)) * U ^ 2) / ((1 - U / cL) * R) +
    dot_Hexpl / cL) / GilmoreCoeffB

/-- The gas pressure with the error policy of the specification (section 7):
a radius at or below the hard-core radius is reported as a failure. -/
def gas_pressure_guarded_spec (M : MathLib α) (lic_data : LIC α) (Bubble : APECSS_Bubble α)
    (Sol : Sol α) (t : α) : Option α :=
  if Sol.R ≤ hardcore_radius_spec M lic_data Bubble t then none
  else some (gas_pressure_spec M lic_data Bubble Sol t)

/-- The gas pressure derivative with the error policy of the specification
(section 7): a radius at or below the hard-core radius is reported as a
failure. -/
def gas_pressure_derivative_guarded_spec (M : MathLib α) (lic_data : LIC α)
    (Bubble : APECSS_Bubble α) (Sol : Sol α) (t : α) : Option α :=
  if Sol.R ≤ hardcore_radius_spec M lic_data Bubble t then none
  else some (gas_pressure_derivative_spec M lic_data Bubble Sol t)

/-! ## Concrete inputs -/

/-- A bubble context whose collaborators are constant functions: time `t`,
reference radius `R0`, reference pressure `p0`, far-field pressure `pinf`,
surface tension `sigma`, polytropic exponent `Gamma`, and `rhoref`, `cref`,
wall pressure `pL`, density `rho`, enthalpy `h + p/rho`, sound speed `c`;
every pressure derivative is zero. -/
def constantBubble (t R0 p0 pinf sigma Gamma rhoref cref pL rho h c : α) : APECSS_Bubble α where
  t := t
  R0 := R0
  p0 := p0
  get_pressure_infinity := fun _ => pinf
  get_pressurederivative_infinity := fun _ => 0
  Gas := { Gamma := Gamma }
  Liquid :=
    { rhoref := rhoref
      cref := cref
      get_pressure_bubblewall := fun _ _ => pL
      get_pressurederivative_bubblewall_expl := fun _ _ => 0
      get_pressurederivative_viscous_impl := fun _ => 0
      density_nasg := fun _ => rho
      enthalpy_nasg := fun p r => h + p / r
      soundspeed_nasg := fun _ _ => c }
  Interface :=
    { get_surfacetension := fun _ => sigma
      get_pressurederivative_viscous_impl := fun _ => 0 }

/-- A water-like bubble at time `t`: `R0 = 1e-6`, `p0 = pinf = 1e5`,
`sigma = 0.072`, `Gamma = 4/3`, `rhoref = 998`, `cref = 1500`. -/
def waterBubble (t : α) : APECSS_Bubble α :=
  constantBubble t (1 / 10 ^ 6) (10 ^ 5) (10 ^ 5) (72 / 1000) (4 / 3) 998 1500 (10 ^ 5) 998 0 1500

/-- Case data with a pulse longer than the first collapse time:
`tauL = 1`, `Rnbd = 2`, `Rnc1 = 3`, `Rnc2 = 4`, `tmax1 = 1/2`, `tmax2 = 3/2`. -/
def lic_data_longpulse : LIC α where
  tauL := 1
  Rnbd := 2
  Rnc1 := 3
  Rnc2 := 4
  tmax1 := 1 / 2
  tmax2 := 3 / 2

/-- Case data with a pulse longer than both collapse times:
`tauL = 1`, `Rnbd = 2`, `Rnc1 = 3`, `Rnc2 = 4`, `tmax1 = 1/4`, `tmax2 = 1/2`. -/
def lic_data_verylongpulse : LIC α where
  tauL := 1
  Rnbd := 2
  Rnc1 := 3
  Rnc2 := 4
  tmax1 := 1 / 4
  tmax2 := 1 / 2

/-- Case data with the collapse times in the wrong order:
`tauL = 1/4`, `Rnbd = 2`, `Rnc1 = 3`, `Rnc2 = 4`, `tmax1 = 3`, `tmax2 = 1`. -/
def lic_data_swapped : LIC α where
  tauL := 1 / 4
  Rnbd := 2
  Rnc1 := 3
  Rnc2 := 4
  tmax1 := 3
  tmax2 := 1

/-- Case data with round numbers: `tauL = 1/4`, `Rnbd = 18`, `Rnc1 = 9`,
`Rnc2 = 9/2`, `tmax1 = 1`, `tmax2 = 3`. -/
def lic_data_round : LIC α where
  tauL := 1 / 4
  Rnbd := 18
  Rnc1 := 9
  Rnc2 := 9 / 2
  tmax1 := 1
  tmax2 := 3

/-- A bubble at time `t` with unit data: `R0 = 1`, `p0 = pinf = 1`, no
surface tension, `Gamma = 1`, `rhoref = cref = 1`, `pL = 2`, `rho = 1`,
`h = 0`, `c = 2`. -/
def unitBubble (t : α) : APECSS_Bubble α :=
  constantBubble t 1 1 1 0 1 1 1 2 1 0 2

/-- A water-like bubble at time `t` with an isothermal gas: the data of
`waterBubble` with `Gamma = 1`. -/
def isothermalBubble (t : α) : APECSS_Bubble α :=
  constantBubble t (1 / 10 ^ 6) (10 ^ 5) (10 ^ 5) (72 / 1000) 1 998 1500 (10 ^ 5) 998 0 1500

/-- A stand-in math library over `ℚ`, for running the branches of the code
that call no math function: `pow x y = x`, `sin = cos = sqrt = id`, `π = 3`,
`ln 10 = 2`. -/
def rationalMath : MathLib ℚ where
  pow := fun x _ => x
  sin := id
  cos := id
  sqrt := id
  pi := 3
  ln10 := 2

end Model

/-- The math library over the reals: real power, sine, cosine, square root,
`π` and `ln 10`. -/
noncomputable def realMath : MathLib ℝ where
  pow := fun x y => x ^ y
  sin := Real.sin
  cos := Real.cos
  sqrt := Real.sqrt
  pi := Real.pi
  ln10 := Real.log 10

/-! ## The phases of the equilibrium radius -/

section Phases

variable {α : Type} [LinearOrderedField α]

/-- The first branch of `lic_particlevelocityderivative` (source lines
221-224). -/
theorem lic_particlevelocityderivative_zero_of_gt (M : MathLib α) (lic_data : LIC α)
    (Bubble : APECSS_Bubble α) (Sol : Sol α) (t : α) (h : t > 2 * lic_data.tauL) :
    lic_particlevelocityderivative M lic_data Bubble Sol t = 0 := by
  unfold lic_particlevelocityderivative
  rw [if_pos h]

/-- The second branch of `lic_equilibriumradius` (source lines 254-255). -/
theorem lic_equilibriumradius_of_plateau (M : MathLib α) (lic_data : LIC α)
    (Bubble : APECSS_Bubble α) (t : α)
    (h2 : 2 * lic_data.tauL ≤ t) (h1 : t < lic_data.tmax1) :
    lic_equilibriumradius M lic_data Bubble t = lic_data.Rnbd := by
  unfold lic_equilibriumradius
  rw [if_neg (not_lt.mpr h2), if_pos h1]

/-- The first branch of `lic_equilibriumradius` (source lines 250-253). -/
theorem lic_equilibriumradius_of_growth (M : MathLib α) (lic_data : LIC α)
    (Bubble : APECSS_Bubble α) (t : α) (h : t < 2 * lic_data.tauL) :
    lic_equilibriumradius M lic_data Bubble t = lic_growthradius M lic_data Bubble t := by
  unfold lic_equilibriumradius
  rw [if_pos h]

/-- Claim C1: for every case data and every time `t` with `2·tauL ≤ t` and
`t < tmax1`, `lic_equilibriumradius` returns exactly `Rnbd`, whatever `R0`,
`Rnc1`, `Rnc2`, `tmax2` and the math library are. -/
theorem lic_equilibriumradius_plateau (M : MathLib α) (lic_data : LIC α)
    (Bubble : APECSS_Bubble α) (t : α)
    (h2 : 2 * lic_data.tauL ≤ t) (h1 : t < lic_data.tmax1) :
    lic_equilibriumradius M lic_data Bubble t = lic_data.Rnbd :=
  lic_equilibriumradius_of_plateau M lic_data Bubble t h2 h1

/-- Witness of `lic_equilibriumradius_plateau`: the reference case of `main`
at `t = 1e-6`, between `2·tauL = 5.3e-13` and `tmax1 = 3.244e-6`. -/
theorem lic_equilibriumradius_plateau_witness :
    2 * (lic_data_main : LIC ℚ).tauL ≤ 1 / 10 ^ 6 ∧
      (1 / 10 ^ 6 : ℚ) < (lic_data_main : LIC ℚ).tmax1 ∧
      lic_equilibriumradius rationalMath lic_data_main
        (waterBubble 0) (1 / 10 ^ 6 : ℚ) = 13718 / 10 ^ 9 :=
  ⟨by norm_num [lic_data_main], by norm_num [lic_data_main],
    lic_equilibriumradius_plateau _ lic_data_main _ _
      (by norm_num [lic_data_main]) (by norm_num [lic_data_main])⟩

/-- Claim C2, as amended: for every case data and every time `t` with
`2·tauL ≤ t`, if `tmax1 ≤ t < tmax2` then `lic_equilibriumradius` returns
`Rnc1`, and if `tmax1 ≤ t` and `tmax2 ≤ t` then it returns `Rnc2`. -/
theorem lic_equilibriumradius_collapse (M : MathLib α) (lic_data : LIC α)
    (Bubble : APECSS_Bubble α) (t : α) (h2 : 2 * lic_data.tauL ≤ t) :
    (lic_data.tmax1 ≤ t → t < lic_data.tmax2 →
        lic_equilibriumradius M lic_data Bubble t = lic_data.Rnc1) ∧
      (lic_data.tmax1 ≤ t → lic_data.tmax2 ≤ t →
        lic_equilibriumradius M lic_data Bubble t = lic_data.Rnc2) := by
  refine ⟨fun h1 h3 => ?_, fun h1 h3 => ?_⟩
  · unfold lic_equilibriumradius
    rw [if_neg (not_lt.mpr h2), if_neg (not_lt.mpr h1), if_pos h3]
  · unfold lic_equilibriumradius
    rw [if_neg (not_lt.mpr h2), if_neg (not_lt.mpr h1), if_neg (not_lt.mpr h3)]

/-- Witness of `lic_equilibriumradius_collapse`: the reference case of `main`,
where the equilibrium radius is `3.615e-6` at `t = 5.0e-6` and `2.415e-6` at
`t = 1.0e-5`. -/
theorem lic_equilibriumradius_collapse_witness :
    lic_equilibriumradius rationalMath lic_data_main
        (waterBubble 0) (5 / 10 ^ 6 : ℚ) = 3615 / 10 ^ 9 ∧
      lic_equilibriumradius rationalMath lic_data_main
        (waterBubble 0) (1 / 10 ^ 5 : ℚ) = 2415 / 10 ^ 9 :=
  ⟨(lic_equilibriumradius_collapse _ lic_data_main _ (5 / 10 ^ 6 : ℚ)
      (by norm_num [lic_data_main])).1
      (by norm_num [lic_data_main]) (by norm_num [lic_data_main]),
    (lic_equilibriumradius_collapse _ lic_data_main _ (1 / 10 ^ 5 : ℚ)
      (by norm_num [lic_data_main])).2
      (by norm_num [lic_data_main]) (by norm_num [lic_data_main])⟩

/-- Claim C4: for every state, every bubble context and every time
`t > 2·tauL`, `lic_particlevelocityderivative` returns exactly `0`; the state,
the collaborators and the math library are arbitrary, so none is consulted. -/
theorem lic_particlevelocityderivative_after_pulse (M : MathLib α) (lic_data : LIC α)
    (Bubble : APECSS_Bubble α) (Sol : Sol α) (t : α) (h : t > 2 * lic_data.tauL) :
    lic_particlevelocityderivative M lic_data Bubble Sol t = 0 :=
  lic_particlevelocityderivative_zero_of_gt M lic_data Bubble Sol t h

/-- Witness of `lic_particlevelocityderivative_after_pulse`: the reference
case of `main` at `t = 6.0e-13 > 2·265e-15`. -/
theorem lic_particlevelocityderivative_after_pulse_witness :
    (6 / 10 ^ 13 : ℚ) > 2 * (lic_data_main : LIC ℚ).tauL ∧
      lic_particlevelocityderivative rationalMath lic_data_main
        (waterBubble 0) (Sol.mk 0 (1 / 10 ^ 6)) (6 / 10 ^ 13 : ℚ) = 0 :=
  ⟨by norm_num [lic_data_main],
    lic_particlevelocityderivative_after_pulse _ lic_data_main _ _ _
      (by norm_num [lic_data_main])⟩

end Phases

/-! ## The formulas of the gas pressure and of the Gilmore equation -/

section Formulas

variable {α : Type} [LinearOrderedField α]

/-- The hard-core radius computed inside `lic_gas_pressure_hc` and inside
`lic_gas_pressurederivative_hc` is the one of the specification. -/
theorem hardcore_radius_code_eq_spec (M : MathLib α) (lic_data : LIC α)
    (Bubble : APECSS_Bubble α) :
    (if Bubble.t > lic_data.tmax1 then lic_equilibriumradius M lic_data Bubble Bubble.t / 9
      else 0) = hardcore_radius_spec M lic_data Bubble Bubble.t := by
  unfold hardcore_radius_spec
  by_cases h : Bubble.t ≤ lic_data.tmax1
  · rw [if_neg (not_lt.mpr h), if_pos h]
  · rw [if_pos (not_le.mp h), if_neg h]

/-- The code of `lic_gas_pressure_hc` computes the pressure law of the
specification at the time `Bubble->t`. -/
theorem lic_gas_pressure_hc_eq_spec (M : MathLib α) (lic_data : LIC α)
    (Bubble : APECSS_Bubble α) (Sol : Sol α) :
    lic_gas_pressure_hc M lic_data Bubble Sol =
      gas_pressure_spec M lic_data Bubble Sol Bubble.t := by
  simp only [lic_gas_pressure_hc, gas_pressure_spec, hardcore_radius_code_eq_spec,
    APECSS_POW3, pow_succ, pow_zero, one_mul]

/-- The code of `lic_gas_pressurederivative_hc` computes the pressure
derivative of the specification at the time `Bubble->t`, whatever its time
argument. -/
theorem lic_gas_pressurederivative_hc_eq_spec (M : MathLib α) (lic_data : LIC α)
    (Bubble : APECSS_Bubble α) (Sol : Sol α) (t : α) :
    lic_gas_pressurederivative_hc M lic_data Bubble Sol t =
      gas_pressure_derivative_spec M lic_data Bubble Sol Bubble.t := by
  simp only [lic_gas_pressurederivative_hc, gas_pressure_derivative_spec,
    hardcore_radius_code_eq_spec, lic_gas_pressure_hc_eq_spec,
    APECSS_POW3, APECSS_POW2, pow_succ, pow_zero, one_mul]

/-- Claim C6: with `t` the time `Bubble->t` of the bubble context and `rhc`
the hard-core radius (`rhc = 0` when `t ≤ tmax1`, `rhc = Rn/9` when
`t > tmax1`, `Rn = lic_equilibriumradius t`), `lic_gas_pressure_hc` returns
`(p0 + 2σ/Rn)·((Rn³ − rhc³)/(R³ − rhc³))^Γ` with `σ` the surface tension at
`R`, and `lic_gas_pressurederivative_hc` divides by `R³ − rhc³` with the same
`rhc`, whatever its own time argument. -/
theorem lic_gas_pressure_hc_formula (M : MathLib α) (lic_data : LIC α)
    (Bubble : APECSS_Bubble α) (Sol : Sol α) (t rhc : α)
    (h0 : Bubble.t ≤ lic_data.tmax1 → rhc = 0)
    (h9 : Bubble.t > lic_data.tmax1 →
      rhc = lic_equilibriumradius M lic_data Bubble Bubble.t / 9) :
    lic_gas_pressure_hc M lic_data Bubble Sol =
        (Bubble.p0 + 2 * Bubble.Interface.get_surfacetension Sol.R /
            lic_equilibriumradius M lic_data Bubble Bubble.t) *
          M.pow ((lic_equilibriumradius M lic_data Bubble Bubble.t ^ 3 - rhc ^ 3) /
            (Sol.R ^ 3 - rhc ^ 3)) Bubble.Gas.Gamma ∧
      lic_gas_pressurederivative_hc M lic_data Bubble Sol t =
        -3 * lic_gas_pressure_hc M lic_data Bubble Sol * Bubble.Gas.Gamma * Sol.R ^ 2 * Sol.U /
          (Sol.R ^ 3 - rhc ^ 3) := by
  have hr : rhc = hardcore_radius_spec M lic_data Bubble Bubble.t := by
    unfold hardcore_radius_spec
    by_cases h : Bubble.t ≤ lic_data.tmax1
    · rw [if_pos h, h0 h]
    · rw [if_neg h, h9 (not_le.mp h)]
  subst hr
  refine ⟨?_, ?_⟩
  · rw [lic_gas_pressure_hc_eq_spec]
    rfl
  · rw [lic_gas_pressurederivative_hc_eq_spec, lic_gas_pressure_hc_eq_spec]
    rfl

/-- Witness of `lic_gas_pressure_hc_formula`: the round case data at the time
`Bubble->t = 2 > tmax1 = 1`, where `Rn = Rnc1 = 9` and `rhc = 1`, for the
state `U = 1`, `R = 3`; the derivative is asked at another time, `7`. -/
theorem lic_gas_pressure_hc_formula_witness :
    lic_gas_pressure_hc realMath lic_data_round (unitBubble 2) (Sol.mk 1 3) =
        ((unitBubble (2 : ℝ)).p0 + 2 * (unitBubble (2 : ℝ)).Interface.get_surfacetension 3 /
            lic_equilibriumradius realMath lic_data_round (unitBubble 2) 2) *
          realMath.pow ((lic_equilibriumradius realMath lic_data_round (unitBubble 2) 2 ^ 3 -
            1 ^ 3) / (3 ^ 3 - 1 ^ 3)) (unitBubble (2 : ℝ)).Gas.Gamma ∧
      lic_gas_pressurederivative_hc realMath lic_data_round (unitBubble 2) (Sol.mk 1 3) 7 =
        -3 * lic_gas_pressure_hc realMath lic_data_round (unitBubble 2) (Sol.mk 1 3) *
          (unitBubble (2 : ℝ)).Gas.Gamma * 3 ^ 2 * 1 / (3 ^ 3 - 1 ^ 3) :=
  lic_gas_pressure_hc_formula realMath lic_data_round (unitBubble 2) (Sol.mk 1 3) 7 1
    (by norm_num [lic_data_round, unitBubble, constantBubble])
    (by norm_num [lic_data_round, unitBubble, constantBubble, lic_equilibriumradius])

/-- The reciprocal sound speed `inv_cL` of the code turns the products of
`lic_gilmorevelocity_ode` into the quotients of the specification. -/
theorem lic_dotU_Gilmore_eq_spec (Bubble : APECSS_Bubble α) (Sol : Sol α) (t : α) :
    lic_dotU_Gilmore Bubble Sol t =
      dotU_Gilmore_spec Sol.U Sol.R
        (Bubble.Liquid.enthalpy_nasg (Bubble.Liquid.get_pressure_bubblewall Sol t)
            (Bubble.Liquid.density_nasg (Bubble.Liquid.get_pressure_bubblewall Sol t)) -
          Bubble.Liquid.enthalpy_nasg (Bubble.get_pressure_infinity t)
            (Bubble.Liquid.density_nasg (Bubble.get_pressure_infinity t)))
        (Bubble.Liquid.get_pressurederivative_bubblewall_expl Sol t /
            Bubble.Liquid.density_nasg (Bubble.Liquid.get_pressure_bubblewall Sol t) -
          Bubble.get_pressurederivative_infinity t /
            Bubble.Liquid.density_nasg (Bubble.get_pressure_infinity t))
        (Bubble.Liquid.soundspeed_nasg (Bubble.Liquid.get_pressure_bubblewall Sol t)
          (Bubble.Liquid.density_nasg (Bubble.Liquid.get_pressure_bubblewall Sol t)))
        (GilmoreCoeffB_spec
          (Bubble.Liquid.get_pressurederivative_viscous_impl Sol.R +
            Bubble.Interface.get_pressurederivative_viscous_impl Sol.R)
          (Bubble.Liquid.soundspeed_nasg (Bubble.Liquid.get_pressure_bubblewall Sol t)
            (Bubble.Liquid.density_nasg (Bubble.Liquid.get_pressure_bubblewall Sol t)))
          (Bubble.Liquid.density_nasg (Bubble.Liquid.get_pressure_bubblewall Sol t))) := by
  simp only [lic_dotU_Gilmore, lic_GilmoreCoeffB, dotU_Gilmore_spec, GilmoreCoeffB_spec,
    APECSS_ONETHIRD, APECSS_POW2, mul_one_div, div_div, pow_succ, pow_zero, one_mul]

/-- Claim C7: `lic_gilmorevelocity_ode` returns `dotU_Gilmore` plus the laser
source term `lic_particlevelocityderivative`, where `dotU_Gilmore` is
`[((1 + U/cL)·H − 1.5·(1 − U/(3cL))·U²)/((1 − U/cL)·R) + dot_Hexpl/cL]/GilmoreCoeffB`
with `GilmoreCoeffB = 1 + (dot_pvisc_impl/cL)/ρL` and `H`, `dot_Hexpl`, `cL`,
`ρL`, `dot_pvisc_impl` computed from the collaborators as in the code; for
every `t > 2·tauL` the returned value is `dotU_Gilmore` alone. -/
theorem lic_gilmorevelocity_ode_formula (M : MathLib α) (lic_data : LIC α)
    (Bubble : APECSS_Bubble α) (Sol : Sol α) (t pL pInf rhoL rhoInf H dot_Hexpl cL
      dot_pvisc_impl : α)
    (hpL : pL = Bubble.Liquid.get_pressure_bubblewall Sol t)
    (hpInf : pInf = Bubble.get_pressure_infinity t)
    (hrhoL : rhoL = Bubble.Liquid.density_nasg pL)
    (hrhoInf : rhoInf = Bubble.Liquid.density_nasg pInf)
    (hH : H = Bubble.Liquid.enthalpy_nasg pL rhoL - Bubble.Liquid.enthalpy_nasg pInf rhoInf)
    (hdH : dot_Hexpl = Bubble.Liquid.get_pressurederivative_bubblewall_expl Sol t / rhoL -
      Bubble.get_pressurederivative_infinity t / rhoInf)
    (hcL : cL = Bubble.Liquid.soundspeed_nasg pL rhoL)
    (hvisc : dot_pvisc_impl = Bubble.Liquid.get_pressurederivative_viscous_impl Sol.R +
      Bubble.Interface.get_pressurederivative_viscous_impl Sol.R) :
    lic_gilmorevelocity_ode M lic_data Bubble Sol t =
        dotU_Gilmore_spec Sol.U Sol.R H dot_Hexpl cL (GilmoreCoeffB_spec dot_pvisc_impl cL rhoL) +
          lic_particlevelocityderivative M lic_data Bubble Sol t ∧
      (t > 2 * lic_data.tauL →
        lic_gilmorevelocity_ode M lic_data Bubble Sol t =
          dotU_Gilmore_spec Sol.U Sol.R H dot_Hexpl cL
            (GilmoreCoeffB_spec dot_pvisc_impl cL rhoL)) := by
  subst hpL hpInf
  subst hrhoL hrhoInf
  subst hH hdH hcL hvisc
  refine ⟨?_, fun h => ?_⟩
  · rw [lic_gilmorevelocity_ode, lic_dotU_Gilmore_eq_spec]
  · rw [lic_gilmorevelocity_ode, lic_dotU_Gilmore_eq_spec,
      lic_particlevelocityderivative_zero_of_gt M lic_data Bubble Sol t h, add_zero]

/-- Witness of `lic_gilmorevelocity_ode_formula`: the unit bubble with the
round case data at `t = 1 > 2·tauL = 1/2`, state `U = 1`, `R = 3`, where
`pL = 2`, `pInf = 1`, `ρL = ρInf = 1`, `H = 1`, `dot_Hexpl = 0`, `cL = 2`,
`dot_pvisc_impl = 0`: the velocity derivative is `1/6`. -/
theorem lic_gilmorevelocity_ode_formula_witness :
    (1 : ℚ) > 2 * (lic_data_round : LIC ℚ).tauL ∧
      lic_gilmorevelocity_ode rationalMath lic_data_round (unitBubble 1) (Sol.mk 1 3) 1 = 1 / 6 :=
  ⟨by norm_num [lic_data_round],
    ((lic_gilmorevelocity_ode_formula rationalMath lic_data_round (unitBubble 1) (Sol.mk 1 3)
      1 2 1 1 1 1 0 2 0 rfl rfl rfl rfl
      (by norm_num [unitBubble, constantBubble])
      (by norm_num [unitBubble, constantBubble])
      rfl
      (by norm_num [unitBubble, constantBubble])).2
      (by norm_num [lic_data_round])).trans
      (by norm_num [dotU_Gilmore_spec, GilmoreCoeffB_spec])⟩

/-! ## Invalid physical states -/

/-- Claim C8, refuted as stated: for the round case data at the time
`Bubble->t = 2` the hard-core radius is `rhc = 1`; at the radius `R = 1/2 ≤ rhc`
the specification asks for a failure, and the code returns the numbers `-832`
for the gas pressure and `-4992/7` for its derivative. -/
theorem lic_gas_pressure_hc_no_failure :
    (Sol.mk (1 : ℝ) (1 / 2)).R ≤ hardcore_radius_spec realMath lic_data_round (unitBubble 2) 2 ∧
      gas_pressure_guarded_spec realMath lic_data_round (unitBubble 2) (Sol.mk 1 (1 / 2)) 2 =
        none ∧
      gas_pressure_derivative_guarded_spec realMath lic_data_round (unitBubble 2)
        (Sol.mk 1 (1 / 2)) 2 = none ∧
      lic_gas_pressure_hc realMath lic_data_round (unitBubble 2) (Sol.mk 1 (1 / 2)) = -832 ∧
      lic_gas_pressurederivative_hc realMath lic_data_round (unitBubble 2) (Sol.mk 1 (1 / 2)) 2 =
        -4992 / 7 := by
  have hRn : lic_equilibriumradius realMath lic_data_round (unitBubble (2 : ℝ)) 2 = 9 := by
    norm_num [lic_equilibriumradius, lic_data_round]
  have hrhc : hardcore_radius_spec realMath lic_data_round (unitBubble (2 : ℝ)) 2 = 1 := by
    rw [hardcore_radius_spec, hRn]
    norm_num [lic_data_round]
  have ht : (unitBubble (2 : ℝ)).t = 2 := rfl
  have hp : lic_gas_pressure_hc realMath lic_data_round (unitBubble 2) (Sol.mk 1 (1 / 2)) =
      -832 := by
    rw [lic_gas_pressure_hc_eq_spec, ht, gas_pressure_spec, hrhc, hRn]
    norm_num [unitBubble, constantBubble, realMath]
  refine ⟨?_, ?_, ?_, hp, ?_⟩
  · rw [hrhc]
    norm_num
  · rw [gas_pressure_guarded_spec, hrhc]
    norm_num
  · rw [gas_pressure_derivative_guarded_spec, hrhc]
    norm_num
  · rw [lic_gas_pressurederivative_hc_eq_spec, gas_pressure_derivative_spec,
      ← lic_gas_pressure_hc_eq_spec, hp, ht, hrhc]
    norm_num [unitBubble, constantBubble]

/-- The hard-core radius lies below a positive equilibrium radius. -/
theorem hardcore_radius_lt_equilibriumradius (M : MathLib α) (lic_data : LIC α)
    (Bubble : APECSS_Bubble α) (t : α)
    (hRn : 0 < lic_equilibriumradius M lic_data Bubble t) :
    hardcore_radius_spec M lic_data Bubble t < lic_equilibriumradius M lic_data Bubble t := by
  unfold hardcore_radius_spec
  split_ifs
  · exact hRn
  · linarith

/-- Claim C8, as amended: a radius below the hard-core radius is computed,
not reported.  For an isothermal gas (`Γ = 1`, with `pow(x, 1) = x`), a
positive equilibrium radius `Rn`, a positive factor `p0 + 2σ/Rn` and every
state with `R < rhc`, where the error policy of the specification asks for a
failure, `lic_gas_pressure_hc` returns the number
`(p0 + 2σ/Rn)·(Rn³ − rhc³)/(R³ − rhc³)`, which is negative, and
`lic_gas_pressurederivative_hc` returns `−3·p_gas·R²·U/(R³ − rhc³)`. -/
theorem lic_gas_pressure_hc_below_hardcore (M : MathLib α) (lic_data : LIC α)
    (Bubble : APECSS_Bubble α) (Sol : Sol α) (t : α)
    (hpow : ∀ x : α, M.pow x 1 = x)
    (hGamma : Bubble.Gas.Gamma = 1)
    (hRn : 0 < lic_equilibriumradius M lic_data Bubble Bubble.t)
    (hC : 0 < Bubble.p0 + 2 * Bubble.Interface.get_surfacetension Sol.R /
      lic_equilibriumradius M lic_data Bubble Bubble.t)
    (hR : Sol.R < hardcore_radius_spec M lic_data Bubble Bubble.t) :
    gas_pressure_guarded_spec M lic_data Bubble Sol Bubble.t = none ∧
      gas_pressure_derivative_guarded_spec M lic_data Bubble Sol Bubble.t = none ∧
      lic_gas_pressure_hc M lic_data Bubble Sol =
        (Bubble.p0 + 2 * Bubble.Interface.get_surfacetension Sol.R /
            lic_equilibriumradius M lic_data Bubble Bubble.t) *
          ((lic_equilibriumradius M lic_data Bubble Bubble.t ^ 3 -
              hardcore_radius_spec M lic_data Bubble Bubble.t ^ 3) /
            (Sol.R ^ 3 - hardcore_radius_spec M lic_data Bubble Bubble.t ^ 3)) ∧
      lic_gas_pressure_hc M lic_data Bubble Sol < 0 ∧
      lic_gas_pressurederivative_hc M lic_data Bubble Sol t =
        -3 * lic_gas_pressure_hc M lic_data Bubble Sol * Sol.R ^ 2 * Sol.U /
          (Sol.R ^ 3 - hardcore_radius_spec M lic_data Bubble Bubble.t ^ 3) := by
  have hodd : Odd 3 := by decide
  have hcube : StrictMono fun a : α => a ^ 3 := hodd.strictMono_pow
  have hnum : 0 < lic_equilibriumradius M lic_data Bubble Bubble.t ^ 3 -
      hardcore_radius_spec M lic_data Bubble Bubble.t ^ 3 :=
    sub_pos.mpr (hcube (hardcore_radius_lt_equilibriumradius M lic_data Bubble Bubble.t hRn))
  have hden : Sol.R ^ 3 - hardcore_radius_spec M lic_data Bubble Bubble.t ^ 3 < 0 :=
    sub_neg.mpr (hcube hR)
  have hval : lic_gas_pressure_hc M lic_data Bubble Sol =
      (Bubble.p0 + 2 * Bubble.Interface.get_surfacetension Sol.R /
          lic_equilibriumradius M lic_data Bubble Bubble.t) *
        ((lic_equilibriumradius M lic_data Bubble Bubble.t ^ 3 -
            hardcore_radius_spec M lic_data Bubble Bubble.t ^ 3) /
          (Sol.R ^ 3 - hardcore_radius_spec M lic_data Bubble Bubble.t ^ 3)) := by
    rw [lic_gas_pressure_hc_eq_spec, gas_pressure_spec, hGamma, hpow]
  refine ⟨?_, ?_, hval, ?_, ?_⟩
  · rw [gas_pressure_guarded_spec, if_pos hR.le]
  · rw [gas_pressure_derivative_guarded_spec, if_pos hR.le]
  · rw [hval]
    exact mul_neg_of_pos_of_neg hC (div_neg_of_pos_of_neg hnum hden)
  · rw [lic_gas_pressurederivative_hc_eq_spec, gas_pressure_derivative_spec,
      ← lic_gas_pressure_hc_eq_spec, hGamma, mul_one]

/-- Witness of `lic_gas_pressure_hc_below_hardcore`: the reference case of
`main` with the isothermal water-like bubble at `Bubble->t = 5.0e-6 > tmax1`,
where `Rn = Rnc1 = 3.615e-6` and `rhc = Rn/9 ≈ 4.017e-7`, for the state
`U = 1`, `R = 4.0e-7 < rhc`: the gas pressure returned is negative. -/
theorem lic_gas_pressure_hc_below_hardcore_witness :
    (Sol.mk (1 : ℝ) (4 / 10 ^ 7)).R <
        hardcore_radius_spec realMath lic_data_main (isothermalBubble (5 / 10 ^ 6))
          (isothermalBubble (5 / 10 ^ 6 : ℝ)).t ∧
      gas_pressure_guarded_spec realMath lic_data_main (isothermalBubble (5 / 10 ^ 6))
          (Sol.mk 1 (4 / 10 ^ 7)) (isothermalBubble (5 / 10 ^ 6 : ℝ)).t = none ∧
      lic_gas_pressure_hc realMath lic_data_main (isothermalBubble (5 / 10 ^ 6))
          (Sol.mk 1 (4 / 10 ^ 7)) < 0 :=
  have hRn : lic_equilibriumradius realMath lic_data_main (isothermalBubble (5 / 10 ^ 6 : ℝ))
      (isothermalBubble (5 / 10 ^ 6 : ℝ)).t = 3615 / 10 ^ 9 := by
    norm_num [lic_equilibriumradius, lic_data_main, isothermalBubble, constantBubble]
  have hR : (Sol.mk (1 : ℝ) (4 / 10 ^ 7)).R <
      hardcore_radius_spec realMath lic_data_main (isothermalBubble (5 / 10 ^ 6))
        (isothermalBubble (5 / 10 ^ 6 : ℝ)).t := by
    rw [hardcore_radius_spec, hRn]
    norm_num [lic_data_main, isothermalBubble, constantBubble]
  have h := lic_gas_pressure_hc_below_hardcore realMath lic_data_main
    (isothermalBubble (5 / 10 ^ 6)) (Sol.mk 1 (4 / 10 ^ 7)) (5 / 10 ^ 6)
    (fun x => Real.rpow_one x) rfl
    (by rw [hRn]; norm_num)
    (by rw [hRn]; norm_num [isothermalBubble, constantBubble])
    hR
  ⟨hR, h.1, h.2.2.2.1⟩

end Formulas

/-! ## The growth phase over the reals -/

section Reals

/-- The real cube root undoes the cube of `APECSS_POW3` on nonnegative reals. -/
theorem real_cuberoot_POW3 (x : ℝ) (hx : 0 ≤ x) :
    realMath.pow (APECSS_POW3 x) APECSS_ONETHIRD = x := by
  have hc : APECSS_POW3 x = x ^ (3 : ℕ) := by unfold APECSS_POW3; ring
  have h3 : (APECSS_ONETHIRD : ℝ) = ((3 : ℕ) : ℝ)⁻¹ := by unfold APECSS_ONETHIRD; norm_num
  show (APECSS_POW3 x) ^ (APECSS_ONETHIRD : ℝ) = x
  rw [hc, h3]
  exact Real.pow_rpow_inv_natCast hx (by norm_num)

/-- The cube of `APECSS_POW3` undoes the real cube root on nonnegative reals. -/
theorem real_POW3_cuberoot (V : ℝ) (hV : 0 ≤ V) :
    APECSS_POW3 (realMath.pow V APECSS_ONETHIRD) = V := by
  have h3 : (APECSS_ONETHIRD : ℝ) = ((3 : ℕ) : ℝ)⁻¹ := by unfold APECSS_ONETHIRD; norm_num
  have h := Real.rpow_inv_natCast_pow hV (n := 3) (by norm_num)
  rw [← h3] at h
  show APECSS_POW3 (V ^ (APECSS_ONETHIRD : ℝ)) = V
  unfold APECSS_POW3
  nth_rewrite 4 [← h]
  ring

/-- The raised-cosine profile `t − (tauL/π)·sin(π·t/tauL)` of the growth law
runs between `0` and `2·tauL` on the pulse `0 ≤ t ≤ 2·tauL`. -/
theorem real_profile_bounds (tauL t : ℝ) (htau : 0 < tauL) (h0 : 0 ≤ t) (h2 : t ≤ 2 * tauL) :
    0 ≤ t - (tauL / Real.pi) * Real.sin (Real.pi * t / tauL) ∧
      t - (tauL / Real.pi) * Real.sin (Real.pi * t / tauL) ≤ 2 * tauL := by
  have hpi := Real.pi_pos
  have hk : 0 < tauL / Real.pi := div_pos htau hpi
  have hx0 : 0 ≤ Real.pi * t / tauL := by positivity
  have hx2 : Real.pi * t / tauL ≤ 2 * Real.pi := by
    rw [div_le_iff₀ htau]
    nlinarith
  have hs1 : Real.sin (Real.pi * t / tauL) ≤ Real.pi * t / tauL := Real.sin_le hx0
  have hs2 : -Real.sin (Real.pi * t / tauL) ≤ 2 * Real.pi - Real.pi * t / tauL := by
    rw [← Real.sin_two_pi_sub]
    exact Real.sin_le (by linarith)
  have e1 : (tauL / Real.pi) * (Real.pi * t / tauL) = t := by
    field_simp
    ring
  have e2 : (tauL / Real.pi) * (2 * Real.pi - Real.pi * t / tauL) = 2 * tauL - t := by
    field_simp
    ring
  constructor
  · have := mul_le_mul_of_nonneg_left hs1 hk.le
    rw [e1] at this
    linarith
  · have := mul_le_mul_of_nonneg_left hs2 hk.le
    rw [e2] at this
    linarith

/-- The argument of the cube root is positive on the pulse: it is a convex
combination of `R0³` and `Rnbd³`. -/
theorem real_growthargument_pos (lic_data : LIC ℝ) (Bubble : APECSS_Bubble ℝ) (t : ℝ)
    (htau : 0 < lic_data.tauL) (hR0 : 0 < Bubble.R0) (hRnbd : 0 < lic_data.Rnbd)
    (h0 : 0 ≤ t) (h2 : t ≤ 2 * lic_data.tauL) :
    0 < lic_growthargument realMath lic_data Bubble t := by
  obtain ⟨hlo, hhi⟩ := real_profile_bounds lic_data.tauL t htau h0 h2
  have h2tau : 0 < 2 * lic_data.tauL := by linarith
  have hA : 0 < APECSS_POW3 Bubble.R0 := by unfold APECSS_POW3; positivity
  have hB : 0 < APECSS_POW3 lic_data.Rnbd := by unfold APECSS_POW3; positivity
  show 0 < APECSS_POW3 Bubble.R0 + (APECSS_POW3 lic_data.Rnbd - APECSS_POW3 Bubble.R0) *
    (t - (lic_data.tauL / Real.pi) * Real.sin (Real.pi * t / lic_data.tauL)) /
      (2 * lic_data.tauL)
  set p := t - (lic_data.tauL / Real.pi) * Real.sin (Real.pi * t / lic_data.tauL) with hp
  have hs0 : 0 ≤ p / (2 * lic_data.tauL) := div_nonneg hlo h2tau.le
  have hs1 : p / (2 * lic_data.tauL) ≤ 1 := (div_le_one h2tau).mpr hhi
  have e : APECSS_POW3 Bubble.R0 + (APECSS_POW3 lic_data.Rnbd - APECSS_POW3 Bubble.R0) * p /
      (2 * lic_data.tauL) =
      (1 - p / (2 * lic_data.tauL)) * APECSS_POW3 Bubble.R0 +
        p / (2 * lic_data.tauL) * APECSS_POW3 lic_data.Rnbd := by
    ring
  rw [e]
  rcases eq_or_lt_of_le hs0 with h | h
  · rw [← h]
    simpa using hA
  · have h1 : 0 ≤ (1 - p / (2 * lic_data.tauL)) * APECSS_POW3 Bubble.R0 :=
      mul_nonneg (by linarith) hA.le
    have h3 : 0 < p / (2 * lic_data.tauL) * APECSS_POW3 lic_data.Rnbd := mul_pos h hB
    linarith

/-- The growth law starts at `R0`. -/
theorem real_growthradius_zero (lic_data : LIC ℝ) (Bubble : APECSS_Bubble ℝ)
    (hR0 : 0 ≤ Bubble.R0) :
    lic_growthradius realMath lic_data Bubble 0 = Bubble.R0 := by
  have e : lic_growthargument realMath lic_data Bubble 0 = APECSS_POW3 Bubble.R0 := by
    simp [lic_growthargument, realMath]
  rw [lic_growthradius, e]
  exact real_cuberoot_POW3 _ hR0

/-- The growth law ends at `Rnbd`. -/
theorem real_growthradius_end (lic_data : LIC ℝ) (Bubble : APECSS_Bubble ℝ)
    (htau : 0 < lic_data.tauL) (hRnbd : 0 ≤ lic_data.Rnbd) :
    lic_growthradius realMath lic_data Bubble (2 * lic_data.tauL) = lic_data.Rnbd := by
  have hx : Real.pi * (2 * lic_data.tauL) / lic_data.tauL = 2 * Real.pi := by
    field_simp
    ring
  have e : lic_growthargument realMath lic_data Bubble (2 * lic_data.tauL) =
      APECSS_POW3 lic_data.Rnbd := by
    show APECSS_POW3 Bubble.R0 + (APECSS_POW3 lic_data.Rnbd - APECSS_POW3 Bubble.R0) *
      (2 * lic_data.tauL - (lic_data.tauL / Real.pi) *
        Real.sin (Real.pi * (2 * lic_data.tauL) / lic_data.tauL)) / (2 * lic_data.tauL) = _
    rw [hx, Real.sin_two_pi]
    field_simp
  rw [lic_growthradius, e]
  exact real_cuberoot_POW3 _ hRnbd

/-- Claim C3: over the reals, for case data with `0 < tauL`, `R0 > 0` and
`Rnbd > 0`, `lic_equilibriumradius 0 = R0`, the growth-phase expression at
`t = 2·tauL` equals `Rnbd`, and so it agrees with the value that
`lic_equilibriumradius` returns at every `t` with `2·tauL ≤ t < tmax1`. -/
theorem lic_growth_endpoints (lic_data : LIC ℝ) (Bubble : APECSS_Bubble ℝ)
    (htau : 0 < lic_data.tauL) (hR0 : 0 < Bubble.R0) (hRnbd : 0 < lic_data.Rnbd) :
    lic_equilibriumradius realMath lic_data Bubble 0 = Bubble.R0 ∧
      lic_growthradius realMath lic_data Bubble (2 * lic_data.tauL) = lic_data.Rnbd ∧
      ∀ t : ℝ, 2 * lic_data.tauL ≤ t → t < lic_data.tmax1 →
        lic_equilibriumradius realMath lic_data Bubble t =
          lic_growthradius realMath lic_data Bubble (2 * lic_data.tauL) := by
  refine ⟨?_, real_growthradius_end lic_data Bubble htau hRnbd.le, fun t h2 h1 => ?_⟩
  · rw [lic_equilibriumradius_of_growth realMath lic_data Bubble 0 (by linarith)]
    exact real_growthradius_zero lic_data Bubble hR0.le
  · rw [lic_equilibriumradius_of_plateau realMath lic_data Bubble t h2 h1,
      real_growthradius_end lic_data Bubble htau hRnbd.le]

/-- Witness of `lic_growth_endpoints`: the round case data (`tauL = 1/4`,
`Rnbd = 18`, `tmax1 = 1`) with the unit bubble (`R0 = 1`); the plateau is
sampled at `t = 3/4`. -/
theorem lic_growth_endpoints_witness :
    lic_equilibriumradius realMath lic_data_round (unitBubble 0) 0 = 1 ∧
      lic_growthradius realMath lic_data_round (unitBubble 0)
        (2 * (lic_data_round : LIC ℝ).tauL) = 18 ∧
      lic_equilibriumradius realMath lic_data_round (unitBubble 0) (3 / 4) =
        lic_growthradius realMath lic_data_round (unitBubble 0)
          (2 * (lic_data_round : LIC ℝ).tauL) :=
  have h := lic_growth_endpoints lic_data_round (unitBubble (0 : ℝ))
    (by norm_num [lic_data_round]) (by norm_num [unitBubble, constantBubble])
    (by norm_num [lic_data_round])
  ⟨h.1, h.2.1, h.2.2 (3 / 4) (by norm_num [lic_data_round]) (by norm_num [lic_data_round])⟩

/-- The equilibrium radius is positive on the pulse `0 ≤ t ≤ 2·tauL`. -/
theorem real_equilibriumradius_pos (lic_data : LIC ℝ) (Bubble : APECSS_Bubble ℝ) (t : ℝ)
    (htau : 0 < lic_data.tauL) (hR0 : 0 < Bubble.R0) (hRnbd : 0 < lic_data.Rnbd)
    (hRnc1 : 0 < lic_data.Rnc1) (hRnc2 : 0 < lic_data.Rnc2)
    (h0 : 0 ≤ t) (h2 : t ≤ 2 * lic_data.tauL) :
    0 < lic_equilibriumradius realMath lic_data Bubble t := by
  unfold lic_equilibriumradius
  split_ifs
  · exact Real.rpow_pos_of_pos
      (real_growthargument_pos lic_data Bubble t htau hR0 hRnbd h0 h2) _
  · exact hRnbd
  · exact hRnc1
  · exact hRnc2

/-- The breakdown pressure is nonnegative where the far-field pressure, the
surface tension and the equilibrium radius are. -/
theorem real_breakdownpressure_nonneg (lic_data : LIC ℝ) (Bubble : APECSS_Bubble ℝ)
    (Sol : Sol ℝ) (t : ℝ)
    (hRn : 0 < lic_equilibriumradius realMath lic_data Bubble t)
    (hpinf : 0 ≤ Bubble.get_pressure_infinity t)
    (hsigma : 0 ≤ Bubble.Interface.get_surfacetension Sol.R) :
    0 ≤ lic_breakdownpressure realMath lic_data Bubble Sol t := by
  simp only [lic_breakdownpressure, APECSS_POW4, APECSS_POW3]
  apply div_nonneg
  · have h3 : 0 ≤ lic_equilibriumradius realMath lic_data Bubble t *
        lic_equilibriumradius realMath lic_data Bubble t *
        lic_equilibriumradius realMath lic_data Bubble t := by positivity
    have h4 : 0 ≤ lic_equilibriumradius realMath lic_data Bubble t *
        lic_equilibriumradius realMath lic_data Bubble t *
        lic_equilibriumradius realMath lic_data Bubble t *
        lic_equilibriumradius realMath lic_data Bubble t := by positivity
    exact add_nonneg (mul_nonneg hpinf h4) (mul_nonneg (mul_nonneg (by norm_num) hsigma) h3)
  · have h : Bubble.R0 * Bubble.R0 * Bubble.R0 * Bubble.R0 =
        (Bubble.R0 * Bubble.R0) * (Bubble.R0 * Bubble.R0) := by ring
    rw [h]
    exact mul_self_nonneg _

/-- The radicand is positive where the breakdown pressure is nonnegative. -/
theorem real_radicand_pos (lic_data : LIC ℝ) (Bubble : APECSS_Bubble ℝ)
    (Sol : Sol ℝ) (t : ℝ)
    (hP : 0 ≤ lic_breakdownpressure realMath lic_data Bubble Sol t)
    (hrho : 0 < Bubble.Liquid.rhoref) (hc : 0 < Bubble.Liquid.cref) :
    0 < lic_radicand realMath lic_data Bubble Sol t := by
  have hlog : 0 < Real.log 10 := Real.log_pos (by norm_num)
  have h1 : 0 < APECSS_POW2 Bubble.Liquid.rhoref * APECSS_POW2 Bubble.Liquid.cref := by
    unfold APECSS_POW2
    positivity
  have h2 : 0 ≤ 4 * Bubble.Liquid.rhoref * hugoniot_c2 *
      lic_breakdownpressure realMath lic_data Bubble Sol t / (Real.log 10 * hugoniot_c1) := by
    unfold hugoniot_c1 hugoniot_c2
    positivity
  exact add_pos_of_pos_of_nonneg h1 h2

/-- Claim C10: over the reals, for every `t` with `0 ≤ t ≤ 2·tauL`, if
`tauL > 0`, `R0 > 0`, `Rnbd, Rnc1, Rnc2 > 0`, `pInf ≥ 0`, `σ ≥ 0`, `ρref > 0`
and `cref > 0`, then `0 ≤ t − (tauL/π)·sin(π·t/tauL) ≤ 2·tauL`, the argument
of the cube root in `lic_equilibriumradius` is positive, `Rn > 0`, `P ≥ 0`,
the radicand of `lic_particlevelocityderivative` is positive, and so is the
square root by which the function divides. -/
theorem lic_squareroot_safe (lic_data : LIC ℝ) (Bubble : APECSS_Bubble ℝ)
    (Sol : Sol ℝ) (t : ℝ)
    (htau : 0 < lic_data.tauL) (hR0 : 0 < Bubble.R0) (hRnbd : 0 < lic_data.Rnbd)
    (hRnc1 : 0 < lic_data.Rnc1) (hRnc2 : 0 < lic_data.Rnc2)
    (hpinf : 0 ≤ Bubble.get_pressure_infinity t)
    (hsigma : 0 ≤ Bubble.Interface.get_surfacetension Sol.R)
    (hrho : 0 < Bubble.Liquid.rhoref) (hc : 0 < Bubble.Liquid.cref)
    (h0 : 0 ≤ t) (h2 : t ≤ 2 * lic_data.tauL) :
    (0 ≤ t - (lic_data.tauL / realMath.pi) * realMath.sin (realMath.pi * t / lic_data.tauL) ∧
      t - (lic_data.tauL / realMath.pi) * realMath.sin (realMath.pi * t / lic_data.tauL) ≤
        2 * lic_data.tauL) ∧
      0 < lic_growthargument realMath lic_data Bubble t ∧
      0 < lic_equilibriumradius realMath lic_data Bubble t ∧
      0 ≤ lic_breakdownpressure realMath lic_data Bubble Sol t ∧
      0 < lic_radicand realMath lic_data Bubble Sol t ∧
      0 < realMath.sqrt (lic_radicand realMath lic_data Bubble Sol t) := by
  have hRn := real_equilibriumradius_pos lic_data Bubble t htau hR0 hRnbd hRnc1 hRnc2 h0 h2
  have hP := real_breakdownpressure_nonneg lic_data Bubble Sol t hRn hpinf hsigma
  have hrad := real_radicand_pos lic_data Bubble Sol t hP hrho hc
  exact ⟨real_profile_bounds lic_data.tauL t htau h0 h2,
    real_growthargument_pos lic_data Bubble t htau hR0 hRnbd h0 h2, hRn, hP, hrad,
    Real.sqrt_pos.mpr hrad⟩

/-- Witness of `lic_squareroot_safe`: the reference case of `main` with the
water-like bubble, at the middle of the pulse, `t = tauL = 265e-15`. -/
theorem lic_squareroot_safe_witness :
    0 < lic_growthargument realMath lic_data_main (waterBubble 0) (265 / 10 ^ 15) ∧
      0 < lic_equilibriumradius realMath lic_data_main (waterBubble 0) (265 / 10 ^ 15) ∧
      0 ≤ lic_breakdownpressure realMath lic_data_main (waterBubble 0)
        (Sol.mk 0 (1 / 10 ^ 6)) (265 / 10 ^ 15) ∧
      0 < lic_radicand realMath lic_data_main (waterBubble 0)
        (Sol.mk 0 (1 / 10 ^ 6)) (265 / 10 ^ 15) ∧
      0 < realMath.sqrt (lic_radicand realMath lic_data_main (waterBubble 0)
        (Sol.mk 0 (1 / 10 ^ 6)) (265 / 10 ^ 15)) :=
  (lic_squareroot_safe lic_data_main (waterBubble (0 : ℝ)) (Sol.mk 0 (1 / 10 ^ 6))
    (265 / 10 ^ 15)
    (by norm_num [lic_data_main]) (by norm_num [waterBubble, constantBubble])
    (by norm_num [lic_data_main]) (by norm_num [lic_data_main]) (by norm_num [lic_data_main])
    (by norm_num [waterBubble, constantBubble]) (by norm_num [waterBubble, constantBubble])
    (by norm_num [waterBubble, constantBubble]) (by norm_num [waterBubble, constantBubble])
    (by norm_num) (by norm_num [lic_data_main])).2

/-- The derivative in the radius of the hard-core pressure law
`C·(a/(r³ − b))^Γ`, where `r³ > b`. -/
theorem real_hardcore_law_hasDerivAt (C a b Γ R : ℝ) (hR : b < R ^ 3) :
    HasDerivAt (fun r : ℝ => C * (a / (r ^ 3 - b)) ^ Γ)
      (-3 * (C * (a / (R ^ 3 - b)) ^ Γ) * Γ * R ^ 2 / (R ^ 3 - b)) R := by
  have hd : R ^ 3 - b ≠ 0 := by linarith
  by_cases ha : a = 0
  · subst ha
    have hz : (0 : ℝ) ^ Γ * Γ = 0 := by
      by_cases hΓ : Γ = 0
      · rw [hΓ, mul_zero]
      · rw [Real.zero_rpow hΓ, zero_mul]
    have hD : -3 * (C * (0 / (R ^ 3 - b)) ^ Γ) * Γ * R ^ 2 / (R ^ 3 - b) = 0 := by
      rw [zero_div]
      have : -3 * (C * (0 : ℝ) ^ Γ) * Γ * R ^ 2 = -3 * C * ((0 : ℝ) ^ Γ * Γ) * R ^ 2 := by ring
      rw [this, hz]
      simp
    rw [hD]
    simp only [zero_div]
    exact hasDerivAt_const R _
  · have hq : a / (R ^ 3 - b) ≠ 0 := div_ne_zero ha hd
    have h1 : HasDerivAt (fun r : ℝ => r ^ 3 - b) (3 * R ^ 2) R := by
      simpa using (hasDerivAt_pow 3 R).sub_const b
    have h2 := (hasDerivAt_const R a).div h1 hd
    have h3 := (h2.rpow_const (p := Γ) (Or.inl hq)).const_mul C
    convert h3 using 1
    rw [Real.rpow_sub_one hq]
    field_simp
    ring

/-- The derivative in time of the cube of the growth law. -/
theorem real_growthlaw_hasDerivAt (A B τ t : ℝ) (hτ : τ ≠ 0) :
    HasDerivAt (fun s : ℝ => A + (B - A) * (s - (τ / Real.pi) * Real.sin (Real.pi * s / τ)) /
      (2 * τ)) ((B - A) * (1 - Real.cos (Real.pi * t / τ)) / (2 * τ)) t := by
  have hpi := Real.pi_ne_zero
  have h1 : HasDerivAt (fun s : ℝ => Real.pi * s / τ) (Real.pi / τ) t := by
    simpa using ((hasDerivAt_id t).const_mul Real.pi).div_const τ
  have h2 := (h1.sin.const_mul (τ / Real.pi))
  have h3 := ((((hasDerivAt_id t).sub h2).const_mul (B - A)).div_const (2 * τ)).const_add A
  convert h3 using 1
  field_simp
  ring

/-- The derivative in the equilibrium radius of the numerator of the breakdown
pressure, divided by the constant `K`. -/
theorem real_pressure_polynomial_hasDerivAt (p s K r : ℝ) :
    HasDerivAt (fun x : ℝ => (p * (x * x * x * x) + 2 * s * (x * x * x)) / K)
      ((p * (4 * r ^ 3) + 2 * s * (3 * r ^ 2)) / K) r := by
  have h := (((hasDerivAt_pow 4 r).const_mul p).add
    ((hasDerivAt_pow 3 r).const_mul (2 * s))).div_const K
  convert h using 1
  funext x
  ring

/-- Claim C5: over the reals, with the surface tension held fixed at `σ` and
`R³ > rhc³`, the gas pressure of `lic_gas_pressure_hc` has the derivative
`−3·p_gas·Γ·R²/(R³ − rhc³)` with respect to the radius `R`, and this
derivative multiplied by `U` is the value that
`lic_gas_pressurederivative_hc` returns. -/
theorem lic_gas_pressurederivative_hc_is_derivative (lic_data : LIC ℝ)
    (Bubble : APECSS_Bubble ℝ) (U R t sigma : ℝ)
    (hsigma : ∀ r : ℝ, Bubble.Interface.get_surfacetension r = sigma)
    (hR : hardcore_radius_spec realMath lic_data Bubble Bubble.t ^ 3 < R ^ 3) :
    HasDerivAt (fun r : ℝ => lic_gas_pressure_hc realMath lic_data Bubble (Sol.mk U r))
        (-3 * lic_gas_pressure_hc realMath lic_data Bubble (Sol.mk U R) * Bubble.Gas.Gamma *
          R ^ 2 / (R ^ 3 - hardcore_radius_spec realMath lic_data Bubble Bubble.t ^ 3)) R ∧
      lic_gas_pressurederivative_hc realMath lic_data Bubble (Sol.mk U R) t =
        -3 * lic_gas_pressure_hc realMath lic_data Bubble (Sol.mk U R) * Bubble.Gas.Gamma *
          R ^ 2 / (R ^ 3 - hardcore_radius_spec realMath lic_data Bubble Bubble.t ^ 3) * U := by
  have hp : ∀ r : ℝ, lic_gas_pressure_hc realMath lic_data Bubble (Sol.mk U r) =
      (Bubble.p0 + 2 * sigma / lic_equilibriumradius realMath lic_data Bubble Bubble.t) *
        ((lic_equilibriumradius realMath lic_data Bubble Bubble.t ^ 3 -
            hardcore_radius_spec realMath lic_data Bubble Bubble.t ^ 3) /
          (r ^ 3 - hardcore_radius_spec realMath lic_data Bubble Bubble.t ^ 3)) ^
          Bubble.Gas.Gamma := by
    intro r
    rw [lic_gas_pressure_hc_eq_spec]
    simp only [gas_pressure_spec, hsigma, realMath]
  constructor
  · have hfun : (fun r : ℝ => lic_gas_pressure_hc realMath lic_data Bubble (Sol.mk U r)) =
        fun r : ℝ =>
          (Bubble.p0 + 2 * sigma / lic_equilibriumradius realMath lic_data Bubble Bubble.t) *
            ((lic_equilibriumradius realMath lic_data Bubble Bubble.t ^ 3 -
                hardcore_radius_spec realMath lic_data Bubble Bubble.t ^ 3) /
              (r ^ 3 - hardcore_radius_spec realMath lic_data Bubble Bubble.t ^ 3)) ^
              Bubble.Gas.Gamma := funext hp
    rw [hfun, hp R]
    exact real_hardcore_law_hasDerivAt _ _ _ _ R hR
  · rw [lic_gas_pressurederivative_hc_eq_spec, gas_pressure_derivative_spec,
      ← lic_gas_pressure_hc_eq_spec]
    ring

/-- Witness of `lic_gas_pressurederivative_hc_is_derivative`: the round case
data at the time `Bubble->t = 2`, where `rhc = 1`, for the unit bubble
(constant surface tension `0`) at the radius `R = 3` and velocity `U = 1`. -/
theorem lic_gas_pressurederivative_hc_is_derivative_witness :
    HasDerivAt (fun r : ℝ => lic_gas_pressure_hc realMath lic_data_round (unitBubble 2)
          (Sol.mk 1 r))
        (-3 * lic_gas_pressure_hc realMath lic_data_round (unitBubble 2) (Sol.mk 1 3) *
          (unitBubble (2 : ℝ)).Gas.Gamma * 3 ^ 2 /
            (3 ^ 3 - hardcore_radius_spec realMath lic_data_round (unitBubble 2)
              (unitBubble (2 : ℝ)).t ^ 3)) 3 ∧
      lic_gas_pressurederivative_hc realMath lic_data_round (unitBubble 2) (Sol.mk 1 3) 2 =
        -3 * lic_gas_pressure_hc realMath lic_data_round (unitBubble 2) (Sol.mk 1 3) *
          (unitBubble (2 : ℝ)).Gas.Gamma * 3 ^ 2 /
            (3 ^ 3 - hardcore_radius_spec realMath lic_data_round (unitBubble 2)
              (unitBubble (2 : ℝ)).t ^ 3) * 1 :=
  lic_gas_pressurederivative_hc_is_derivative lic_data_round (unitBubble 2) 1 3 2 0
    (fun _ => rfl)
    (by norm_num [hardcore_radius_spec, lic_equilibriumradius, lic_data_round, unitBubble,
      constantBubble])

/-- Claim C9: over the reals, for `0 < t < 2·tauL`, with `R0 > 0`, `Rnbd > 0`,
`tauL > 0`, the far-field pressure held constant at `pInf` and the state (so
the surface tension) fixed, the quantity `dotP` of
`lic_particlevelocityderivative` is the time derivative of the breakdown
pressure `P` that it computes from `Rn = lic_equilibriumradius t`. -/
theorem lic_breakdownpressurederivative_is_derivative (lic_data : LIC ℝ)
    (Bubble : APECSS_Bubble ℝ) (Sol : Sol ℝ) (t pInf : ℝ)
    (htau : 0 < lic_data.tauL) (hR0 : 0 < Bubble.R0) (hRnbd : 0 < lic_data.Rnbd)
    (h0 : 0 < t) (h2 : t < 2 * lic_data.tauL)
    (hpinf : ∀ s : ℝ, Bubble.get_pressure_infinity s = pInf) :
    HasDerivAt (fun s : ℝ => lic_breakdownpressure realMath lic_data Bubble Sol s)
      (lic_breakdownpressurederivative realMath lic_data Bubble Sol t) t := by
  have hV : 0 < lic_growthargument realMath lic_data Bubble t :=
    real_growthargument_pos lic_data Bubble t htau hR0 hRnbd h0.le h2.le
  have hcube := real_POW3_cuberoot _ hV.le
  have hRn : 0 < lic_growthargument realMath lic_data Bubble t ^ (APECSS_ONETHIRD : ℝ) :=
    Real.rpow_pos_of_pos hV _
  have hR04 : APECSS_POW4 Bubble.R0 ≠ 0 := by
    unfold APECSS_POW4
    positivity
  -- the growth law and its derivative
  have hVd := real_growthlaw_hasDerivAt (APECSS_POW3 Bubble.R0) (APECSS_POW3 lic_data.Rnbd)
    lic_data.tauL t htau.ne'
  have hRd : HasDerivAt (fun s : ℝ => lic_growthradius realMath lic_data Bubble s)
      ((APECSS_POW3 lic_data.Rnbd - APECSS_POW3 Bubble.R0) *
          (1 - Real.cos (Real.pi * t / lic_data.tauL)) / (2 * lic_data.tauL) *
        APECSS_ONETHIRD *
        lic_growthargument realMath lic_data Bubble t ^ ((APECSS_ONETHIRD : ℝ) - 1)) t :=
    hVd.rpow_const (p := APECSS_ONETHIRD) (Or.inl hV.ne')
  have hPd := (real_pressure_polynomial_hasDerivAt pInf
    (Bubble.Interface.get_surfacetension Sol.R) (APECSS_POW4 Bubble.R0)
    (lic_growthradius realMath lic_data Bubble t)).comp t hRd
  -- near `t` the code is in its growth branch
  have hev : (fun s : ℝ => lic_breakdownpressure realMath lic_data Bubble Sol s) =ᶠ[nhds t]
      ((fun x : ℝ => (pInf * (x * x * x * x) +
          2 * Bubble.Interface.get_surfacetension Sol.R * (x * x * x)) /
            APECSS_POW4 Bubble.R0) ∘
        fun s : ℝ => lic_growthradius realMath lic_data Bubble s) := by
    filter_upwards [Iio_mem_nhds h2] with s hs
    simp only [lic_breakdownpressure, Function.comp, hpinf,
      lic_equilibriumradius_of_growth realMath lic_data Bubble s hs, APECSS_POW4, APECSS_POW3]
  refine (hPd.congr_of_eventuallyEq hev).congr_deriv ?_
  -- the two expressions of the derivative agree
  have key : ∀ V Rn K A B c τ p σ : ℝ, 0 < Rn → V = Rn * Rn * Rn → K ≠ 0 → τ ≠ 0 →
      (p * (4 * Rn ^ 3) + 2 * σ * (3 * Rn ^ 2)) / K *
          ((B - A) * (1 - c) / (2 * τ) * (1 / 3) * (Rn / V)) =
        (2 * p * Rn + 3 * σ) / (3 * K * τ) * (B - A) * (1 - c) := by
    intro V Rn K A B c τ p σ hRnpos hVeq hK hτ
    subst hVeq
    have hRn0 : Rn ≠ 0 := hRnpos.ne'
    field_simp
    ring
  have hsub := Real.rpow_sub_one hV.ne' (APECSS_ONETHIRD : ℝ)
  simp only [lic_breakdownpressurederivative, hpinf,
    lic_equilibriumradius_of_growth realMath lic_data Bubble t h2]
  rw [hsub]
  exact key _ _ _ _ _ _ _ _ _ hRn hcube.symm hR04 htau.ne'

/-- Witness of `lic_breakdownpressurederivative_is_derivative`: the reference
case of `main` with the water-like bubble (constant far-field pressure `1e5`),
at the middle of the pulse, `t = tauL = 265e-15`. -/
theorem lic_breakdownpressurederivative_is_derivative_witness :
    HasDerivAt (fun s : ℝ => lic_breakdownpressure realMath lic_data_main (waterBubble 0)
        (Sol.mk 0 (1 / 10 ^ 6)) s)
      (lic_breakdownpressurederivative realMath lic_data_main (waterBubble 0)
        (Sol.mk 0 (1 / 10 ^ 6)) (265 / 10 ^ 15)) (265 / 10 ^ 15) :=
  lic_breakdownpressurederivative_is_derivative lic_data_main (waterBubble 0)
    (Sol.mk 0 (1 / 10 ^ 6)) (265 / 10 ^ 15) (10 ^ 5)
    (by norm_num [lic_data_main]) (by norm_num [waterBubble, constantBubble])
    (by norm_num [lic_data_main]) (by norm_num) (by norm_num [lic_data_main])
    (fun _ => rfl)

/-! ## Inputs outside the stated phases -/

/-- Claim C2, refuted as stated: the growth branch is tested first.  With
`tauL = 1`, `R0 = 1`, `Rnbd = 2`, at `t = 1 < 2·tauL` the function returns the
growth value `(9/2)^(1/3)`, which is neither `Rnc1 = 3` although
`tmax1 = 1/2 ≤ t < tmax2 = 3/2`, nor `Rnc2 = 4` although `t ≥ tmax2 = 1/2`;
and with `tmax2 = 1 ≤ t = 2 < tmax1 = 3`, after the pulse, it returns
`Rnbd = 2`, not `Rnc2 = 4`. -/
theorem lic_equilibriumradius_growth_branch_first :
    ((lic_data_longpulse : LIC ℝ).tmax1 ≤ 1 ∧ (1 : ℝ) < (lic_data_longpulse : LIC ℝ).tmax2 ∧
        lic_equilibriumradius realMath lic_data_longpulse (unitBubble 0) 1 =
          realMath.pow (9 / 2) APECSS_ONETHIRD ∧
        lic_equilibriumradius realMath lic_data_longpulse (unitBubble 0) 1 ≠
          (lic_data_longpulse : LIC ℝ).Rnc1) ∧
      ((1 : ℝ) ≥ (lic_data_verylongpulse : LIC ℝ).tmax2 ∧
        lic_equilibriumradius realMath lic_data_verylongpulse (unitBubble 0) 1 =
          realMath.pow (9 / 2) APECSS_ONETHIRD ∧
        lic_equilibriumradius realMath lic_data_verylongpulse (unitBubble 0) 1 ≠
          (lic_data_verylongpulse : LIC ℝ).Rnc2) ∧
      ((2 : ℝ) ≥ (lic_data_swapped : LIC ℝ).tmax2 ∧
        lic_equilibriumradius realMath lic_data_swapped (unitBubble 0) 2 = 2 ∧
        lic_equilibriumradius realMath lic_data_swapped (unitBubble 0) 2 ≠
          (lic_data_swapped : LIC ℝ).Rnc2) := by
  have hroot : ∀ c : ℝ, c * c * c ≠ 9 / 2 → realMath.pow (9 / 2) APECSS_ONETHIRD ≠ c := by
    intro c hc h
    have h3 := real_POW3_cuberoot (9 / 2) (by norm_num)
    rw [h] at h3
    exact hc h3
  have e1 : lic_equilibriumradius realMath lic_data_longpulse (unitBubble 0) 1 =
      realMath.pow (9 / 2) APECSS_ONETHIRD := by
    rw [lic_equilibriumradius_of_growth _ _ _ _ (by norm_num [lic_data_longpulse]),
      lic_growthradius]
    congr 1
    norm_num [lic_growthargument, lic_data_longpulse, unitBubble, constantBubble, realMath,
      APECSS_POW3]
  have e2 : lic_equilibriumradius realMath lic_data_verylongpulse (unitBubble 0) 1 =
      realMath.pow (9 / 2) APECSS_ONETHIRD := by
    rw [lic_equilibriumradius_of_growth _ _ _ _ (by norm_num [lic_data_verylongpulse]),
      lic_growthradius]
    congr 1
    norm_num [lic_growthargument, lic_data_verylongpulse, unitBubble, constantBubble, realMath,
      APECSS_POW3]
  have e3 : lic_equilibriumradius realMath lic_data_swapped (unitBubble 0) 2 = 2 := by
    norm_num [lic_equilibriumradius, lic_data_swapped]
  refine ⟨⟨?_, ?_, e1, ?_⟩, ⟨?_, e2, ?_⟩, ⟨?_, e3, ?_⟩⟩
  · norm_num [lic_data_longpulse]
  · norm_num [lic_data_longpulse]
  · rw [e1]
    exact hroot _ (by norm_num [lic_data_longpulse])
  · norm_num [lic_data_verylongpulse]
  · rw [e2]
    exact hroot _ (by norm_num [lic_data_verylongpulse])
  · norm_num [lic_data_swapped]
  · rw [e3]
    norm_num [lic_data_swapped]

end Reals

end Apecss
